import Mathlib

/-!
Verification of the KCE payment-session reconciliation pipeline.

The definitions below are a shallow embedding of the TypeScript sources:
- `src/features/tours/data.mock.ts` (catalog),
- `src/app/api/checkout/route.ts` (booking checkout handler),
- `src/app/api/webhooks/stripe/route.ts` (webhook receiver),
- `src/services/invoice.ts` (only its failure behaviour matters here).

External SDK calls (Stripe, Supabase, Resend, pdf-lib) are modelled as
explicit inputs: database tables become lists threaded through the
handlers, and each fallible external call is an explicit success flag or
lookup function supplied per request.
-/

namespace KCE

/-! ## Kernel-computable string primitives

The embedding uses list-based equivalents of the JS string operations
(`trim`, `toLowerCase`, `toUpperCase`, `split`, `startsWith`, truthiness)
so that every definition evaluates by reduction. -/

/-- `toLowerCase`/`toUpperCase` are embedded per code point (ASCII case
mapping; the catalog's accented characters are already lowercase where the
code lowercases them). -/
def strLower (s : String) : String := String.mk (s.toList.map Char.toLower)

def strUpper (s : String) : String := String.mk (s.toList.map Char.toUpper)

def strTrim (s : String) : String :=
  String.mk (((s.toList.dropWhile Char.isWhitespace).reverse.dropWhile Char.isWhitespace).reverse)

def strTake (s : String) (n : Nat) : String := String.mk (s.toList.take n)

/-- `s.split(c)` (always at least one piece, `''.split(c) = ['']`). -/
def splitChar (c : Char) : List Char → List (List Char)
  | [] => [[]]
  | x :: xs =>
    let r := splitChar c xs
    if x == c then [] :: r
    else
      match r with
      | [] => [[x]]
      | h :: t => (x :: h) :: t

def strStartsWithAux : List Char → List Char → Bool
  | _, [] => true
  | [], _ :: _ => false
  | a :: as, b :: bs => a == b && strStartsWithAux as bs

def strStartsWith (s pre : String) : Bool := strStartsWithAux s.toList pre.toList

/-! ## Catalog — src/features/tours/data.mock.ts

`rating`/`image`/`tags` are never read by the checkout or webhook code,
so the embedded record keeps only the fields the pipeline consumes. -/

structure Tour where
  id : String
  slug : String
  title : String
  city : String
  durationHours : Nat
  price : Int
  short : String
deriving Repr, DecidableEq

def TOURS : List Tour := [
  ⟨"t_001", "bogota-coffee-culture", "Bogotá Coffee Culture", "Bogotá", 4, 120000,
    "Cata de cafés especiales, tostión artesanal y barrios bohemios."⟩,
  ⟨"t_002", "medellin-street-art", "Medellín Street Art", "Medellín", 3, 110000,
    "Graffitis, historia y transformación social en Comuna 13."⟩,
  ⟨"t_003", "guatape-day-trip", "Guatapé Day Trip", "Guatapé", 8, 280000,
    "La piedra del Peñol, colores vibrantes y paseo en lancha."⟩,
  ⟨"t_004", "cartagena-sunset-sail", "Cartagena Sunset Sail", "Cartagena", 2, 240000,
    "Navega al atardecer por la bahía con brindis incluido."⟩,
  ⟨"t_005", "cocora-valley-hike", "Cocora Valley Hike", "Salento", 6, 260000,
    "Sendero entre palmas de cera y paisajes cafeteros."⟩,
  ⟨"t_006", "tayrona-paradise-beaches", "Tayrona Paradise Beaches", "Santa Marta", 9, 320000,
    "Caminata suave y playas cristalinas en el Tayrona."⟩]

/-- `TOURS_BY_SLUG.get(String(slug).toLowerCase())`: the map is keyed by
lowercased slug; with the catalog's unique slugs this is the first match. -/
def getTourBySlug (slug : String) : Option Tour :=
  TOURS.find? (fun t => strLower t.slug == strLower slug)

/-! ## Checkout request payload and Zod schema — src/app/api/checkout/route.ts -/

structure TourRef where
  slug : Option String := none
  title : Option String := none
  short : Option String := none
  price : Option Int := none
deriving Repr, DecidableEq

structure Customer where
  email : String
  name : String
deriving Repr, DecidableEq

structure Payload where
  tour : TourRef
  quantity : Int
  customer : Customer
  date : String
  phone : Option String := none
  currency : Option String := none
  locale : Option String := none
deriving Repr, DecidableEq

/-- JS truthiness of an optional string (`undefined` and `''` are falsy). -/
def jsTruthyOpt : Option String → Bool
  | none => false
  | some s => !(s == "")

/-- JS `a || b` for an optional string with a string default. -/
def jsOrS (a : Option String) (b : String) : String :=
  match a with
  | some s => if s == "" then b else s
  | none => b

/-- `z.string().min(1).optional()` -/
def optStrMin1 : Option String → Bool
  | none => true
  | some s => 1 ≤ s.length

/-- `z.number().int().min(0).optional()` for the ignored client price. -/
def priceFieldOk : Option Int → Bool
  | none => true
  | some p => 0 ≤ p

/-- `z.enum(['COP','USD']).default('COP')` (the raw field before defaulting). -/
def currencyFieldOk : Option String → Bool
  | none => true
  | some c => c == "COP" || c == "USD"

/-- `z.string().max(10).optional()` -/
def localeFieldOk : Option String → Bool
  | none => true
  | some l => l.length ≤ 10

/-- Abstraction of the zod `.email()` validator (library code external to the
repository): one `@` separating non-empty local and domain parts, no spaces.
No claim depends on the exact extension of the email regex. -/
def emailOk (s : String) : Bool :=
  match splitChar '@' s.toList with
  | [l, d] => !l.isEmpty && !d.isEmpty && !(s.toList.contains ' ')
  | _ => false

/-- `^\d{4}-\d{2}-\d{2}$` -/
def ymdFormatOk (s : String) : Bool :=
  let cs := s.toList
  cs.length == 10 &&
  (cs.take 4).all Char.isDigit &&
  ((cs.drop 4).take 1 == ['-']) &&
  ((cs.drop 5).take 2).all Char.isDigit &&
  ((cs.drop 7).take 1 == ['-']) &&
  ((cs.drop 8).take 2).all Char.isDigit

/-- Schema object: field checks plus the `.refine` requiring a truthy slug
or title (`Boolean(t.slug || t.title)`). -/
def tourRefOk (t : TourRef) : Bool :=
  optStrMin1 t.slug && optStrMin1 t.title && priceFieldOk t.price &&
  (jsTruthyOpt t.slug || jsTruthyOpt t.title)

def schemaOk (p : Payload) : Bool :=
  tourRefOk p.tour &&
  (1 ≤ p.quantity && p.quantity ≤ 20) &&
  emailOk p.customer.email &&
  2 ≤ p.customer.name.length &&
  ymdFormatOk p.date &&
  currencyFieldOk p.currency &&
  localeFieldOk p.locale

/-! ## Date parsing — `parseYMD` / `isTodayOrFuture` -/

def digitsVal (cs : List Char) : Nat :=
  cs.foldl (fun a c => a * 10 + (c.toNat - 48)) 0

def isLeap (y : Nat) : Bool :=
  (y % 4 == 0 && y % 100 != 0) || y % 400 == 0

def daysInMonth (y m : Nat) : Nat :=
  if m == 2 then (if isLeap y then 29 else 28)
  else if m == 4 || m == 6 || m == 9 || m == 11 then 30
  else 31

/-- `new Date(\x60${y}-${m}-${d}T00:00:00Z\x60)` yields `NaN` exactly when the
triple is not a valid calendar date, so `parseYMD` accepts format plus
calendar validity. Returns the parsed `(y, m, d)`. -/
def parseYMD (s : String) : Option (Nat × Nat × Nat) :=
  if ymdFormatOk s then
    let cs := s.toList
    let y := digitsVal (cs.take 4)
    let m := digitsVal ((cs.drop 5).take 2)
    let d := digitsVal ((cs.drop 8).take 2)
    if 1 ≤ m && m ≤ 12 && 1 ≤ d && d ≤ daysInMonth y m then some (y, m, d) else none
  else none

/-- UTC-midnight timestamps of valid dates are strictly monotone in the
lexicographic `(y, m, d)` order, so the code's millisecond comparison is
embedded as comparison of `y·10000 + m·100 + d`. -/
def dateNum (y m d : Nat) : Nat := y * 10000 + m * 100 + d

/-- `isTodayOrFuture`, with "today at UTC midnight" supplied as a `dateNum`. -/
def isTodayOrFuture (today : Nat) (ymd : String) : Bool :=
  match parseYMD ymd with
  | none => false
  | some (y, m, d) => today ≤ dateNum y m d

/-! ## Currency conversion — `copToUsdCents`

JS numbers are embedded as exact rationals; `Math.round` on non-negative
values is `round` (floor of x + 1/2), and `Math.max(1, ·)` is `max 1 ·`. -/

def copToUsdCents (rate : ℚ) (cop : Int) : Int :=
  let usd : ℚ := (cop : ℚ) / rate
  max 1 (round (usd * 100))

/-! ## URL building — `buildSuccessUrl` / `buildCancelUrl`

`URLSearchParams` serializes values with application/x-www-form-urlencoded
percent-encoding (ASCII modelled; every value the route passes is ASCII). -/

def urlKeep (c : Char) : Bool :=
  c.isAlphanum || c == '-' || c == '_' || c == '.' || c == '*'

def hexDigitChar (n : Nat) : Char :=
  if n < 10 then Char.ofNat (48 + n) else Char.ofNat (55 + n)

def percentByte (n : Nat) : String :=
  String.mk ['%', hexDigitChar (n / 16 % 16), hexDigitChar (n % 16)]

def formEncode (s : String) : String :=
  String.join (s.toList.map fun c =>
    if urlKeep c then String.singleton c
    else if c == ' ' then "+"
    else percentByte c.toNat)

def buildSuccessUrl (siteUrl sessionPlaceholder slug date : String) (qty : Int) : String :=
  siteUrl ++ "/checkout/success?session_id=" ++ formEncode sessionPlaceholder ++
    "&tour=" ++ formEncode slug ++ "&date=" ++ formEncode date ++
    "&q=" ++ formEncode (toString qty)

def buildCancelUrl (siteUrl slug date : String) (qty : Int) : String :=
  siteUrl ++ "/checkout/cancel?tour=" ++ formEncode slug ++
    "&date=" ++ formEncode date ++ "&q=" ++ formEncode (toString qty)

/-! ## Locale inference — `inferLocale` -/

def inferLocale (acceptLanguage : Option String) (override : Option String) : String :=
  let fromOverride : Option String :=
    match override with
    | some o =>
      let ol := strLower o
      if strStartsWith ol "es" then some "es-419"
      else if strStartsWith ol "en" then some "en"
      else none
    | none => none
  match fromOverride with
  | some r => r
  | none =>
    let raw := strLower (acceptLanguage.getD "")
    let hint := strTrim (String.mk ((splitChar ',' raw.toList).headD []))
    if strStartsWith hint "es" then "es-419"
    else if strStartsWith hint "en" then "en"
    else "auto"

/-! ## Tour resolution — step 1 of the handler

`(data.tour.slug && getTourBySlug(slug)) || (data.tour.title && TOURS.find(...))`:
a falsy (absent/empty) slug skips the lookup, and a failed slug lookup falls
through to the case-insensitive exact title match. -/

def resolveTour (t : TourRef) : Option Tour :=
  let bySlug : Option Tour :=
    match t.slug with
    | some s => if s == "" then none else getTourBySlug s
    | none => none
  match bySlug with
  | some r => some r
  | none =>
    match t.title with
    | some ti =>
      if ti == "" then none
      else TOURS.find? (fun tr => strLower tr.title == strLower ti)
    | none => none

/-! ## Checkout handler — `POST` -/

structure CheckoutEnv where
  stripeMock : Bool := false
  hasStripeKey : Bool := true
  catalogCurrencyEnv : Option String := none
  copUsdRate : ℚ := 4000
  expiresMinEnv : Option Int := none
  siteUrl : String := "http://localhost:3000"
deriving Repr, DecidableEq

structure CheckoutCtx where
  env : CheckoutEnv
  nowMs : Nat := 0
  today : Nat := 0
  acceptLanguage : Option String := none
deriving Repr, DecidableEq

structure CheckoutMeta where
  date : String
  quantity : String
  tour_title : String
  tour_slug : String
  tour_price_cop : String
  customer_name : String
  phone : String
  origin_currency : String
  catalog_currency : String
deriving Repr, DecidableEq

structure LineItem where
  quantity : Int
  currency : String
  unit_amount : Int
  product_name : String
  product_description : String
deriving Repr, DecidableEq

structure SessionParams where
  customer_email : String
  success_url : String
  cancel_url : String
  client_reference_id : String
  locale : String
  phone_collection_enabled : Bool
  expires_at : Nat
  line_item : LineItem
  metadata : CheckoutMeta
deriving Repr, DecidableEq

/-- The seven values serialized (in this order) into the SHA-256 idempotency
key: `JSON.stringify(\x7bslug, date, qty, email, unitAmountCents, success_url,
cancel_url\x7d)`. -/
structure IdemFields where
  slug : String
  date : String
  qty : Int
  emailLower : String
  unitAmountCents : Int
  successUrl : String
  cancelUrl : String
deriving Repr, DecidableEq

/-- Minimal JSON string escaping (quote and backslash); the exact escape set
does not matter for any claim, only that the serialization is a function of
the seven fields. -/
def jsonEscape (s : String) : String :=
  s.toList.foldl (fun acc c =>
    acc ++ (if c == '"' then "\\\"" else if c == '\\' then "\\\\" else String.singleton c)) ""

/-- The exact string fed to `crypto.createHash('sha256')`. -/
def idemKeySource (f : IdemFields) : String :=
  "\x7b\"slug\":\"" ++ jsonEscape f.slug ++
  "\",\"date\":\"" ++ jsonEscape f.date ++
  "\",\"qty\":" ++ toString f.qty ++
  ",\"email\":\"" ++ jsonEscape f.emailLower ++
  "\",\"unitAmountCents\":" ++ toString f.unitAmountCents ++
  ",\"success_url\":\"" ++ jsonEscape f.successUrl ++
  "\",\"cancel_url\":\"" ++ jsonEscape f.cancelUrl ++ "\"\x7d"

/-- `CATALOG_CURRENCY?.toUpperCase() || 'COP'` -/
def catalogCurrencyOf (env : CheckoutEnv) : String :=
  let cu := strUpper (env.catalogCurrencyEnv.getD "")
  if cu == "" then "COP" else cu

/-- The per-unit minor-unit amount: pass-through (clamped to 1) when the
catalog is already in USD, otherwise `copToUsdCents`. -/
def unitAmountFor (env : CheckoutEnv) (price : Int) : Int :=
  if catalogCurrencyOf env == "USD" then max 1 price
  else copToUsdCents env.copUsdRate price

def sessionPlaceholder : String := "\x7bCHECKOUT_SESSION_ID\x7d"

def mkIdemFields (ctx : CheckoutCtx) (p : Payload) (r : Tour) : IdemFields :=
  { slug := r.slug
    date := p.date
    qty := p.quantity
    emailLower := strLower p.customer.email
    unitAmountCents := unitAmountFor ctx.env r.price
    successUrl := buildSuccessUrl ctx.env.siteUrl sessionPlaceholder r.slug p.date p.quantity
    cancelUrl := buildCancelUrl ctx.env.siteUrl r.slug p.date p.quantity }

def mkSessionParams (ctx : CheckoutCtx) (p : Payload) (r : Tour) : SessionParams :=
  let expireMinutes : Int := max 15 (min 60 (ctx.env.expiresMinEnv.getD 24))
  { customer_email := p.customer.email
    success_url := buildSuccessUrl ctx.env.siteUrl sessionPlaceholder r.slug p.date p.quantity
    cancel_url := buildCancelUrl ctx.env.siteUrl r.slug p.date p.quantity
    client_reference_id := strTake (r.slug ++ ":" ++ p.date ++ ":" ++ p.customer.email) 500
    locale := inferLocale ctx.acceptLanguage p.locale
    phone_collection_enabled := !jsTruthyOpt p.phone
    expires_at := ctx.nowMs / 1000 + (expireMinutes * 60).toNat
    line_item :=
      { quantity := p.quantity
        currency := "usd"
        unit_amount := unitAmountFor ctx.env r.price
        product_name := r.title
        product_description :=
          strTrim (r.short ++ (if p.date == "" then "" else " — Fecha: " ++ p.date)) }
    metadata :=
      { date := p.date
        quantity := toString p.quantity
        tour_title := r.title
        tour_slug := r.slug
        tour_price_cop := toString r.price
        customer_name := p.customer.name
        phone := p.phone.getD ""
        origin_currency := strUpper (p.currency.getD "COP")
        catalog_currency := catalogCurrencyOf ctx.env } }

inductive CheckoutResult where
  /-- 400: schema validation failed. -/
  | invalid : CheckoutResult
  /-- 404: tour not found. -/
  | notFound : CheckoutResult
  /-- 400: `parseYMD` rejected the date. -/
  | dateInvalid : CheckoutResult
  /-- 400: the date is in the past. -/
  | datePast : CheckoutResult
  /-- 200 with a simulated success URL (mock mode or missing Stripe key). -/
  | mock (url : String) : CheckoutResult
  /-- `stripe.checkout.sessions.create(params, \x7bidempotencyKey\x7d)`; the
  real key is `"kce_checkout_" ++ hex (sha256 (idemKeySource fields))`. -/
  | create (params : SessionParams) (fields : IdemFields) : CheckoutResult
deriving Repr, DecidableEq

def mockUrl (ctx : CheckoutCtx) (p : Payload) (r : Tour) : String :=
  ctx.env.siteUrl ++ "/checkout/success?mock=1&q=" ++ formEncode (toString p.quantity) ++
    "&tour=" ++ formEncode r.slug ++ "&date=" ++ formEncode p.date

/-- The checkout handler `POST` of src/app/api/checkout/route.ts. -/
def checkoutPOST (ctx : CheckoutCtx) (p : Payload) : CheckoutResult :=
  if !schemaOk p then .invalid
  else
    match resolveTour p.tour with
    | none => .notFound
    | some r =>
      match parseYMD p.date with
      | none => .dateInvalid
      | some (y, m, d) =>
        if !(ctx.today ≤ dateNum y m d) then .datePast
        else if ctx.env.stripeMock || !ctx.env.hasStripeKey then .mock (mockUrl ctx p r)
        else .create (mkSessionParams ctx p r) (mkIdemFields ctx p r)

/-! ## Webhook receiver — src/app/api/webhooks/stripe/route.ts

The Supabase `bookings` and `events` tables are embedded as lists inside a
`DB` record; the `events` rows keep exactly the payload projections the
handler queries (`payload.event_id` for the seen-events ledger and
`payload.session_id` for the invoice-sent marker), other payload fields are
write-only audit data. -/

inductive BStatus where
  | pending | paid | canceled
deriving Repr, DecidableEq

structure BookingRow where
  id : Nat
  stripe_session_id : String
  status : BStatus
  total : Option Int
  currency : Option String
  origin_currency : Option String
  tour_price_cop : Option Int
  customer_email : Option String
  customer_name : Option String
  phone : Option String
  date : String
  persons : Int
  tour_id : Option String
deriving Repr, DecidableEq

structure EventRow where
  type : String
  event_id : Option String
  session_id : Option String
deriving Repr, DecidableEq

structure DB where
  bookings : List BookingRow := []
  events : List EventRow := []
  nextId : Nat := 0
deriving Repr, DecidableEq

/-- `session.metadata` as read by the webhook handler. -/
structure SessionMeta where
  date : Option String := none
  quantity : Option String := none
  tour_title : Option String := none
  tour_slug : Option String := none
  tour_price_cop : Option String := none
  tour_price : Option String := none
  customer_name : Option String := none
  phone : Option String := none
  origin_currency : Option String := none
  currency : Option String := none
  email : Option String := none
deriving Repr, DecidableEq

/-- The `Stripe.Checkout.Session` fields the handler reads; `cd_*` are the
nested `customer_details` properties. -/
structure StripeSession where
  id : String := ""
  payment_status : String := ""
  customer_email : Option String := none
  cd_email : Option String := none
  cd_name : Option String := none
  cd_phone : Option String := none
  amount_total : Option Int := none
  currency : Option String := none
  created : Option Nat := none
  metadata : SessionMeta := {}
deriving Repr, DecidableEq

inductive EvType where
  | checkoutSessionCompleted
  | asyncPaymentSucceeded
  | asyncPaymentFailed
  | sessionExpired
  | paymentIntentSucceeded
  | paymentIntentFailed
  | chargeRefunded
  | other (name : String)
deriving Repr, DecidableEq

/-- A provider event envelope; `session` is `event.data.object` for the
checkout events, `piId` the payment-intent id for the intent/charge events. -/
structure StripeEvent where
  id : String
  type : EvType
  session : StripeSession := {}
  piId : Option String := none
deriving Repr, DecidableEq

/-- `safeStr`: trim a string, `''` for anything absent. -/
def safeStr : Option String → String
  | some s => strTrim s
  | none => ""

/-- `parseYMD` of the webhook module returns the matched string. -/
def parseYMDStr (s : String) : Option String :=
  if s == "" then none
  else (parseYMD s).map (fun _ => s)

def isKebabChar (c : Char) : Bool :=
  ('a' ≤ c && c ≤ 'z') || c.isDigit

def collapseDashes : List Char → List Char
  | [] => []
  | c :: rest =>
    match collapseDashes rest with
    | [] => [c]
    | d :: tl => if c == '-' && d == '-' then d :: tl else c :: d :: tl

/-- `toKebab`: lowercase, replace runs of non-`[a-z0-9]` by `-`, strip edge
dashes. (The NFKD diacritic folding is modelled as identity: every slug this
system produces is already ASCII kebab-case.) -/
def toKebab (s : Option String) : String :=
  let base := strLower (safeStr s)
  let dashed := collapseDashes (base.toList.map (fun c => if isKebabChar c then c else '-'))
  let noLead := dashed.dropWhile (· == '-')
  String.mk ((noLead.reverse.dropWhile (· == '-')).reverse)

/-- JS `Number(str)` restricted to optional-sign integer strings: everything
this pipeline writes into numeric metadata is `String(int)`. Other numeric
shapes (decimals, exponents) behave as NaN here. -/
def strToInt (s : String) : Option Int :=
  match s.toList with
  | [] => none
  | '-' :: ds =>
    if !ds.isEmpty && ds.all Char.isDigit then some (-(digitsVal ds : Int)) else none
  | ds => if ds.all Char.isDigit then some ((digitsVal ds : Int)) else none

/-- JS `Number(x) || 1` on the quantity metadata string: `0`, `NaN` and an
absent value all collapse to 1. Non-integer numerics are out of scope for the
metadata this pipeline writes (always `String(int)`). -/
def jsQtyOr1 (s : Option String) : Int :=
  match s with
  | none => 1
  | some str =>
    match strToInt (strTrim str) with
    | some n => if n == 0 then 1 else n
    | none => 1

/-- `meta.x ? Number(meta.x) : null` (NaN modelled as absent). -/
def jsNumOpt (s : Option String) : Option Int :=
  match s with
  | some str => if str == "" then none else strToInt (strTrim str)
  | none => none

/-- Nullish coalescing chain `a ?? b`. -/
def jsNN (a b : Option String) : Option String :=
  match a with
  | some s => some s
  | none => b

/-- Per-delivery external inputs: the parsed signature outcome, the Stripe
list-by-payment-intent lookup, the `tours` table lookups, and the success of
the PDF render and of the email send. -/
structure World where
  sigPresent : Bool := true
  sigValid : Bool := true
  event : StripeEvent
  linkedSession : String → Option StripeSession := fun _ => none
  tourIdBySlug : String → Option String := fun _ => none
  tourIdByTitle : String → Option String := fun _ => none
  pdfOk : Bool := true
  emailOk : Bool := true
  todayStr : String := ""

structure WebhookCfg where
  webhookSecret : Option String := some "whsec_test"
  stripeKey : Option String := some "sk_test"
  isProd : Bool := true
  resendApiKey : Option String := none
deriving Repr, DecidableEq

def logEvent (db : DB) (type : String) (eventId sessionId : Option String) : DB :=
  { db with events := db.events ++ [⟨type, eventId, sessionId⟩] }

/-- `updateBookingStatusBySessionId`. -/
def updateBookingStatusBySessionId (db : DB) (sid : String) (next : BStatus) : DB :=
  match db.bookings.find? (fun r => r.stripe_session_id == sid) with
  | none => db
  | some ex =>
    if ex.status ≠ next then
      { db with bookings := db.bookings.map (fun r =>
          if r.id == ex.id then { r with status := next } else r) }
    else db

/-- `session.payment_status === 'paid' ? 'paid' : 'pending'` -/
def bookingStatusOf (sess : StripeSession) : BStatus :=
  if sess.payment_status == "paid" then .paid else .pending

/-- `x || null` on a computed string column. -/
def optNonEmpty (s : String) : Option String :=
  if s == "" then none else some s

def upsertCustomerEmail (sess : StripeSession) : String :=
  safeStr (jsNN sess.cd_email (jsNN sess.customer_email sess.metadata.email))

def upsertCustomerName (sess : StripeSession) : String :=
  safeStr (jsNN sess.metadata.customer_name (jsNN sess.cd_name (some "")))

def upsertPhone (sess : StripeSession) : String :=
  safeStr (jsNN sess.metadata.phone (jsNN sess.cd_phone (some "")))

/-- `safeStr(session.currency)?.toUpperCase() || null` -/
def upsertCurrency (sess : StripeSession) : Option String :=
  let c := safeStr sess.currency
  if c == "" then none else some (strUpper c)

/-- `safeStr(meta.origin_currency) || safeStr(meta.currency) || 'COP'` -/
def upsertOriginCurrency (sess : StripeSession) : String :=
  let a := safeStr sess.metadata.origin_currency
  if !(a == "") then a
  else
    let b := safeStr sess.metadata.currency
    if !(b == "") then b else "COP"

/-- `meta.tour_price_cop ? Number(...) : meta.tour_price ? Number(...) : null` -/
def upsertTourPrice (sess : StripeSession) : Option Int :=
  match sess.metadata.tour_price_cop with
  | some s => if s == "" then jsNumOpt sess.metadata.tour_price else jsNumOpt (some s)
  | none => jsNumOpt sess.metadata.tour_price

/-- Resolve `tour_id` by kebab slug, falling back to the case-insensitive
title lookup. -/
def upsertTourId (w : World) (sess : StripeSession) : Option String :=
  let tourSlug := toKebab sess.metadata.tour_slug
  let tourTitle := safeStr sess.metadata.tour_title
  match (if tourSlug == "" then none else w.tourIdBySlug tourSlug) with
  | some i => some i
  | none => if tourTitle == "" then none else w.tourIdByTitle tourTitle

/-- The `.update(...)` column set applied to an existing row (the insert-only
columns `date`, `persons`, `tour_id` are left as they are). -/
def bookingUpdateOf (sess : StripeSession) (r : BookingRow) : BookingRow :=
  { r with
    status := bookingStatusOf sess
    total := sess.amount_total
    currency := upsertCurrency sess
    origin_currency := some (upsertOriginCurrency sess)
    tour_price_cop := upsertTourPrice sess
    customer_email := optNonEmpty (upsertCustomerEmail sess)
    customer_name := optNonEmpty (upsertCustomerName sess)
    phone := optNonEmpty (upsertPhone sess) }

/-- The `.insert(...)` row for a session not seen before. -/
def bookingInsertOf (w : World) (db : DB) (sess : StripeSession) : BookingRow :=
  { id := db.nextId
    stripe_session_id := strTrim sess.id
    status := bookingStatusOf sess
    total := sess.amount_total
    currency := upsertCurrency sess
    origin_currency := some (upsertOriginCurrency sess)
    tour_price_cop := upsertTourPrice sess
    customer_email := optNonEmpty (upsertCustomerEmail sess)
    customer_name := optNonEmpty (upsertCustomerName sess)
    phone := optNonEmpty (upsertPhone sess)
    date := (parseYMDStr (safeStr sess.metadata.date)).getD w.todayStr
    persons := jsQtyOr1 sess.metadata.quantity
    tour_id := upsertTourId w sess }

/-- `upsertBookingFromSession`: select by the unique `stripe_session_id`,
update in place when a row exists, insert otherwise. Returns the booking id.
The only throw is the missing-session-id guard. -/
def upsertBookingFromSession (w : World) (db : DB) (sess : StripeSession) :
    Except String (DB × Nat) :=
  let sid := strTrim sess.id
  if sid == "" then .error "Missing stripe_session_id"
  else
    -- `.maybeSingle()` on the unique key; on the ≤1-rows states this
    -- pipeline reaches, it is the first (only) match
    match db.bookings.find? (fun r => r.stripe_session_id == sid) with
    | some ex =>
      let updated := db.bookings.map (fun r => if r.id == ex.id then bookingUpdateOf sess r else r)
      .ok ({ db with bookings := updated }, ex.id)
    | none =>
      let db' : DB :=
        { db with bookings := db.bookings ++ [bookingInsertOf w db sess], nextId := db.nextId + 1 }
      .ok (db', db.nextId)

/-- The seen-events ledger query of `seenOrMarkEvent`. -/
def seenEvent (db : DB) (eid : String) : Bool :=
  db.events.any (fun r => r.type == "stripe_event_seen" && r.event_id == some eid)

/-- `seenOrMarkEvent`: `true` when the id was already recorded, otherwise
record it (best-effort; database failures are not modelled). -/
def seenOrMarkEvent (db : DB) (eid : String) : DB × Bool :=
  if seenEvent db eid then (db, true)
  else (logEvent db "stripe_event_seen" (some eid) none, false)

/-- One call to the email provider, as observed on the trace. -/
structure EmailSend where
  recipient : String
  session_id : String
  ok : Bool
deriving Repr, DecidableEq

/-- The invoice-sent marker query of `trySendBookingEmail`. -/
def invoiceMarked (db : DB) (sid : String) : Bool :=
  db.events.any (fun r => r.type == "invoice_sent" && r.session_id == some sid)

/-- `session.customer_details?.email || session.customer_email || ''` -/
def sessionRecipient (sess : StripeSession) : String :=
  jsOrS sess.cd_email (jsOrS sess.customer_email "")

/-- `trySendBookingEmail`: guard on the provider key and recipient, check the
`invoice_sent` marker, render the PDF, send, and record the marker only after
a successful send. The whole body runs inside one `try`; a PDF failure
reaches the catch, which logs `invoice_send_exception` (the thrown error
carries no `session` property, so the logged session id is null) and sends
nothing. -/
def trySendBookingEmail (cfg : WebhookCfg) (w : World) (db : DB)
    (sess : StripeSession) : DB × List EmailSend :=
  if !jsTruthyOpt cfg.resendApiKey then (db, [])
  else if sessionRecipient sess == "" then (db, [])
  else if invoiceMarked db sess.id then (db, [])
  else if !w.pdfOk then
    (logEvent db "invoice_send_exception" none none, [])
  else if w.emailOk then
    (logEvent db "invoice_sent" none (some sess.id), [⟨sessionRecipient sess, sess.id, true⟩])
  else
    (logEvent db "invoice_send_error" none (some sess.id), [⟨sessionRecipient sess, sess.id, false⟩])

/-- Observable side effects of one delivery: the session ids successfully
upserted (one entry per performed insert-or-update) and the email calls. -/
structure Trace where
  upserts : List String := []
  sends : List EmailSend := []
deriving Repr, DecidableEq

def Trace.empty : Trace := {}

/-- The `switch (event.type)` dispatch, run after signature verification and
event-level dedup. Returns `some` error message when a branch threw (the
outer catch then picks the status), along with the state and trace as they
stand at the throw. -/
def dispatchEvent (cfg : WebhookCfg) (w : World) (db : DB) :
    Option String × DB × Trace :=
  let ev := w.event
  match ev.type with
  | .checkoutSessionCompleted =>
    match upsertBookingFromSession w db ev.session with
    | .error e => (some e, db, {})
    | .ok (db1, _) =>
      let db2 := logEvent db1 "stripe_checkout_completed" (some ev.id) (some ev.session.id)
      let res := trySendBookingEmail cfg w db2 ev.session
      (none, res.1, { upserts := [strTrim ev.session.id], sends := res.2 })
  | .asyncPaymentSucceeded =>
    match upsertBookingFromSession w db ev.session with
    | .error e => (some e, db, {})
    | .ok (db1, _) =>
      let db2 := logEvent db1 "stripe_checkout_async_succeeded" (some ev.id) (some ev.session.id)
      let res := trySendBookingEmail cfg w db2 ev.session
      (none, res.1, { upserts := [strTrim ev.session.id], sends := res.2 })
  | .asyncPaymentFailed =>
    (none, logEvent db "stripe_checkout_async_failed" (some ev.id) (some ev.session.id), {})
  | .sessionExpired =>
    let db1 :=
      if ev.session.id == "" then db
      else updateBookingStatusBySessionId db ev.session.id .canceled
    (none, logEvent db1 "stripe_checkout_expired" (some ev.id) (some ev.session.id), {})
  | .paymentIntentSucceeded =>
    -- this branch has its own try/catch: an upsert throw is logged as a
    -- lookup error instead of propagating
    let piId := ev.piId.getD ""
    match w.linkedSession piId with
    | some sess =>
      match upsertBookingFromSession w db sess with
      | .error _ => (none, logEvent db "stripe_pi_succeeded_lookup_error" (some ev.id) none, {})
      | .ok (db1, _) =>
        let db2 := logEvent db1 "stripe_pi_succeeded_linked" (some ev.id) (some sess.id)
        let res := trySendBookingEmail cfg w db2 sess
        (none, res.1, { upserts := [strTrim sess.id], sends := res.2 })
    | none =>
      (none, logEvent db "stripe_pi_succeeded_unlinked" (some ev.id) none, {})
  | .paymentIntentFailed =>
    (none, logEvent db "stripe_pi_failed" (some ev.id) none, {})
  | .chargeRefunded =>
    match ev.piId with
    | some piId =>
      if piId == "" then (none, db, {})
      else
        match w.linkedSession piId with
        | some sess =>
          let db1 := updateBookingStatusBySessionId db sess.id .canceled
          (none, logEvent db1 "stripe_charge_refunded" (some ev.id) (some sess.id), {})
        | none =>
          (none, logEvent db "stripe_charge_refunded_orphan" (some ev.id) none, {})
    | none => (none, db, {})
  | .other _ =>
    (none, logEvent db "stripe_unhandled_event" (some ev.id) none, {})

structure WebhookResp where
  status : Nat
  received : Bool := false
  duplicate : Bool := false
  skippedNoEnv : Bool := false
  dev : Bool := false
deriving Repr, DecidableEq

/-- The webhook handler `POST`. -/
def webhookPOST (cfg : WebhookCfg) (w : World) (db : DB) :
    WebhookResp × DB × Trace :=
  if !(jsTruthyOpt cfg.webhookSecret && jsTruthyOpt cfg.stripeKey) then
    if cfg.isProd then ({ status := 500 }, db, {})
    else ({ status := 200, received := true, skippedNoEnv := true }, db, {})
  else if !w.sigPresent then ({ status := 400 }, db, {})
  else if !w.sigValid then ({ status := 400 }, db, {})
  else
    let mk := seenOrMarkEvent db w.event.id
    if mk.2 then ({ status := 200, received := true, duplicate := true }, mk.1, {})
    else
      let d := dispatchEvent cfg w mk.1
      match d.1 with
      | some _ =>
        if cfg.isProd then ({ status := 500 }, d.2.1, d.2.2)
        else ({ status := 200, received := true, dev := true }, d.2.1, d.2.2)
      | none => ({ status := 200, received := true }, d.2.1, d.2.2)

/-- Sequential processing of a list of deliveries. -/
def runAll (cfg : WebhookCfg) (ws : List World) (db : DB) : DB × List Trace :=
  match ws with
  | [] => (db, [])
  | w :: rest =>
    let o := webhookPOST cfg w db
    let r := runAll cfg rest o.2.1
    (r.1, o.2.2 :: r.2)

/-! ## Invariant measures over the webhook state -/

/-- `db'` is `db` with some rows appended to the events ledger (the ledger
is append-only across the handler). -/
def eventsExtended (db db' : DB) : Prop := ∃ l, db'.events = db.events ++ l

/-- Number of booking rows carrying a given `stripe_session_id`. -/
def sidCount (db : DB) (sid : String) : Nat :=
  db.bookings.countP (fun r => r.stripe_session_id == sid)

/-- Number of successful email sends for a session on one trace. -/
def okSendCount (sends : List EmailSend) (sid : String) : Nat :=
  sends.countP (fun e => e.session_id == sid && e.ok)

/-- Successful email sends for a session across a run. -/
def totalOkSends (trs : List Trace) (sid : String) : Nat :=
  (trs.map (fun t => okSendCount t.sends sid)).sum

/-! ## Concrete fixtures used by witnesses and counterexamples -/

def tourGuatape : Tour :=
  ⟨"t_003", "guatape-day-trip", "Guatapé Day Trip", "Guatapé", 8, 280000,
    "La piedra del Peñol, colores vibrantes y paseo en lancha."⟩

def ctxUsdA : CheckoutCtx :=
  { env := { catalogCurrencyEnv := some "USD" }, nowMs := 1760000000000, today := 20261011 }

def ctxUsdB : CheckoutCtx :=
  { env := { catalogCurrencyEnv := some "USD" }, nowMs := 1760009999000, today := 20261011,
    acceptLanguage := some "es-CO,es;q=0.9" }

def payloadA : Payload :=
  { tour := { slug := some "guatape-day-trip" }
    quantity := 3
    customer := { email := "Ana@Example.com", name := "Ana Maria" }
    date := "2026-12-01" }

/-- Same logical booking as `payloadA`: same resolved tour (slug lookup is
case-insensitive), date, quantity, and lowercased email — but a different
client price, email case, phone, locale and currency. -/
def payloadB : Payload :=
  { tour := { slug := some "GUATAPE-DAY-TRIP", title := some "ignored", price := some 50 }
    quantity := 3
    customer := { email := "ANA@example.COM", name := "Ana M Perez" }
    date := "2026-12-01"
    phone := some "3001234567"
    currency := some "USD"
    locale := some "es" }

def sessPaid : StripeSession :=
  { id := "cs_1"
    payment_status := "paid"
    cd_email := some "ana@example.com"
    amount_total := some 7500
    currency := some "usd"
    metadata :=
      { date := some "2026-12-01", quantity := some "3",
        tour_title := some "Guatapé Day Trip", tour_slug := some "guatape-day-trip",
        tour_price_cop := some "280000", customer_name := some "Ana Maria",
        origin_currency := some "COP" } }

def sessUnpaid : StripeSession := { sessPaid with payment_status := "unpaid" }

def cfgHook : WebhookCfg := { resendApiKey := some "re_key" }

def worldPaid : World :=
  { event := { id := "evt_1", type := .checkoutSessionCompleted, session := sessPaid },
    todayStr := "2026-10-11" }

def worldUnpaid : World :=
  { event := { id := "evt_2", type := .checkoutSessionCompleted, session := sessUnpaid },
    todayStr := "2026-10-11" }

def worldPdfFail : World := { worldPaid with pdfOk := false }

def worldBadSig : World := { worldPaid with sigValid := false }

/-! ## Claim theorems -/

/-- C2. Webhook signature enforcement: with the webhook secret and provider
key configured, a delivery whose `stripe-signature` header is missing, or
whose signature fails verification over the raw body, is answered with 400
and mutates nothing — no booking write, no ledger write, no email. -/
theorem c2_webhook_signature_enforcement (cfg : WebhookCfg) (w : World) (db : DB)
    (hsec : jsTruthyOpt cfg.webhookSecret = true)
    (hkey : jsTruthyOpt cfg.stripeKey = true)
    (hbad : w.sigPresent = false ∨ w.sigValid = false) :
    (webhookPOST cfg w db).1.status = 400 ∧
    (webhookPOST cfg w db).2.1 = db ∧
    (webhookPOST cfg w db).2.2 = Trace.empty := by
  unfold webhookPOST
  rcases hbad with h | h
  · simp [hsec, hkey, h, Trace.empty]
  · cases hp : w.sigPresent <;> simp [hsec, hkey, h, hp, Trace.empty]

theorem c2_webhook_signature_enforcement_witness :
    jsTruthyOpt cfgHook.webhookSecret = true ∧
    jsTruthyOpt cfgHook.stripeKey = true ∧
    (worldBadSig.sigPresent = false ∨ worldBadSig.sigValid = false) ∧
    ((webhookPOST cfgHook worldBadSig {}).1.status = 400 ∧
     (webhookPOST cfgHook worldBadSig {}).2.1 = {} ∧
     (webhookPOST cfgHook worldBadSig {}).2.2 = Trace.empty) :=
  ⟨by decide, by decide, Or.inr (by decide),
    c2_webhook_signature_enforcement cfgHook worldBadSig {} (by decide) (by decide)
      (Or.inr (by decide))⟩

/-- C10. Dev-mode bypass: when the webhook secret or the provider key is
unset (JS-falsy), a non-production deployment answers every request —
signed or not — with 200 `received/skipped` and performs no verification
and no state change, while a production deployment answers 500 without
processing. -/
theorem c10_missing_config_bypass (cfg : WebhookCfg) (w : World) (db : DB)
    (hmiss : jsTruthyOpt cfg.webhookSecret = false ∨ jsTruthyOpt cfg.stripeKey = false) :
    (cfg.isProd = false →
      (webhookPOST cfg w db).1 = { status := 200, received := true, skippedNoEnv := true }) ∧
    (cfg.isProd = true → (webhookPOST cfg w db).1.status = 500) ∧
    (webhookPOST cfg w db).2.1 = db ∧
    (webhookPOST cfg w db).2.2 = Trace.empty := by
  unfold webhookPOST
  rcases hmiss with h | h <;> cases hprod : cfg.isProd <;> simp [h, hprod, Trace.empty]

theorem c10_missing_config_bypass_witness :
    (jsTruthyOpt (WebhookCfg.webhookSecret { webhookSecret := none, isProd := false }) = false ∨
      jsTruthyOpt (WebhookCfg.stripeKey { webhookSecret := none, isProd := false }) = false) ∧
    ((webhookPOST { webhookSecret := none, isProd := false } worldPaid {}).1 =
      { status := 200, received := true, skippedNoEnv := true }) :=
  ⟨Or.inl (by decide),
    (c10_missing_config_bypass { webhookSecret := none, isProd := false } worldPaid {}
      (Or.inl (by decide))).1 (by decide)⟩

/-- C7 counterexample. The claim's scenario asserts the computed provider
minor-unit amount for quantity 3, price 100000, rate 4000 equals 750000;
the code computes 2500 minor units per unit, 7500 for the line — and the
claim's own formula `round(3 × 100000 / 4000 × 100)` also evaluates to
7500, not 750000. -/
theorem c7_currency_scenario_counterexample :
    copToUsdCents 4000 100000 * 3 = 7500 ∧
    round (((3 : ℚ) * 100000 / 4000) * 100) = 7500 ∧
    (7500 : ℤ) ≠ 750000 := by
  refine ⟨?_, ?_, by decide⟩
  · show max 1 (round (((100000 : Int) : ℚ) / 4000 * 100)) * 3 = 7500
    rw [round_eq]; norm_num
  · rw [round_eq]; norm_num

/-- C7 amended. The per-unit conversion is the nearest integer (ties up,
as `Math.round`) of `(price / rate) × 100`, floored at 1 minor unit; the
spec's scenario therefore computes 3 × round(100000 / 4000 × 100) =
3 × 2500 = 7500 (not 750000), and a price that rounds to 0 is floored
to 1. -/
theorem c7_currency_conversion_amended :
    (∀ (rate : ℚ) (cop : Int),
      copToUsdCents rate cop = max 1 (round ((cop : ℚ) / rate * 100))) ∧
    copToUsdCents 4000 100000 * 3 = 7500 ∧
    copToUsdCents 4000 1 = 1 := by
  refine ⟨fun _ _ => rfl, ?_, ?_⟩
  · show max 1 (round (((100000 : Int) : ℚ) / 4000 * 100)) * 3 = 7500
    rw [round_eq]; norm_num
  · show max 1 (round (((1 : Int) : ℚ) / 4000 * 100)) = 1
    have h : round (((1 : Int) : ℚ) / 4000 * 100) = 0 := by rw [round_eq]; norm_num
    rw [h]; rfl

/-- Inversion of the checkout handler: a `create` outcome pins down the
resolved catalog entry and shows the session parameters and idempotency-key
fields are built from it. -/
theorem checkoutPOST_create_inv (ctx : CheckoutCtx) (p : Payload) (pa : SessionParams)
    (f : IdemFields) (h : checkoutPOST ctx p = .create pa f) :
    ∃ r, resolveTour p.tour = some r ∧ pa = mkSessionParams ctx p r ∧ f = mkIdemFields ctx p r := by
  unfold checkoutPOST at h
  split at h
  · cases h
  · split at h
    · cases h
    · rename_i r hr
      split at h
      · cases h
      · split at h
        · cases h
        · split at h
          · cases h
          · injection h with hpa hf
            exact ⟨r, hr, hpa.symm, hf.symm⟩

/-- C1. Price authority: the charge is computed solely from the catalog
price of the server-resolved tour. Two requests differing only in the
client-supplied `tour.price` (both schema-acceptable) produce identical
handler outcomes — in particular the same line item — and every created
session's unit amount is `unitAmountFor` of the resolved catalog price. -/
theorem c1_price_authority (ctx : CheckoutCtx) (p : Payload) (pr1 pr2 : Option Int)
    (h1 : priceFieldOk pr1 = true) (h2 : priceFieldOk pr2 = true) :
    checkoutPOST ctx { p with tour := { p.tour with price := pr1 } } =
      checkoutPOST ctx { p with tour := { p.tour with price := pr2 } } ∧
    ∀ pa f, checkoutPOST ctx p = .create pa f →
      ∃ r, resolveTour p.tour = some r ∧
        pa.line_item.unit_amount = unitAmountFor ctx.env r.price := by
  constructor
  · have hs : schemaOk { p with tour := { p.tour with price := pr1 } } =
        schemaOk { p with tour := { p.tour with price := pr2 } } := by
      simp [schemaOk, tourRefOk, h1, h2]
    unfold checkoutPOST
    rw [hs]
    rfl
  · intro pa f h
    obtain ⟨r, hr, hpa, _⟩ := checkoutPOST_create_inv ctx p pa f h
    exact ⟨r, hr, by subst hpa; rfl⟩

theorem c1_price_authority_witness :
    priceFieldOk none = true ∧ priceFieldOk (some 999999) = true ∧
    (checkoutPOST ctxUsdA { payloadA with tour := { payloadA.tour with price := none } } =
       checkoutPOST ctxUsdA { payloadA with tour := { payloadA.tour with price := some 999999 } } ∧
     ∀ pa f, checkoutPOST ctxUsdA payloadA = .create pa f →
       ∃ r, resolveTour payloadA.tour = some r ∧
         pa.line_item.unit_amount = unitAmountFor ctxUsdA.env r.price) :=
  ⟨by decide, by decide,
    c1_price_authority ctxUsdA payloadA none (some 999999) (by decide) (by decide)⟩

/-- C3. Idempotent session creation: the idempotency key is
`"kce_checkout_" ++ sha256` of a serialization of exactly
(resolved slug, date, quantity, lowercased email, computed minor-unit
amount, success URL, cancel URL). Two created sessions agreeing on the
resolved tour, date, quantity and lowercased email — under the same
environment — carry equal key fields, hence the same idempotency key for
the hash, and the provider deduplicates the session. -/
theorem c3_idempotency_key (ctx1 ctx2 : CheckoutCtx) (p1 p2 : Payload)
    (pa1 pa2 : SessionParams) (f1 f2 : IdemFields)
    (henv : ctx1.env = ctx2.env)
    (hres : resolveTour p1.tour = resolveTour p2.tour)
    (hdate : p1.date = p2.date)
    (hqty : p1.quantity = p2.quantity)
    (hemail : strLower p1.customer.email = strLower p2.customer.email)
    (h1 : checkoutPOST ctx1 p1 = .create pa1 f1)
    (h2 : checkoutPOST ctx2 p2 = .create pa2 f2) :
    f1 = f2 ∧
    f1 = { slug := pa1.metadata.tour_slug
           date := p1.date
           qty := p1.quantity
           emailLower := strLower p1.customer.email
           unitAmountCents := pa1.line_item.unit_amount
           successUrl := pa1.success_url
           cancelUrl := pa1.cancel_url } ∧
    ∀ sha : String → String,
      "kce_checkout_" ++ sha (idemKeySource f1) =
        "kce_checkout_" ++ sha (idemKeySource f2) := by
  obtain ⟨r1, hr1, hpa1, hf1⟩ := checkoutPOST_create_inv ctx1 p1 pa1 f1 h1
  obtain ⟨r2, hr2, hpa2, hf2⟩ := checkoutPOST_create_inv ctx2 p2 pa2 f2 h2
  have hr : r1 = r2 := by
    rw [hr1, hr2] at hres
    exact Option.some.inj hres
  have hf : f1 = f2 := by
    subst hf1 hf2 hr
    simp [mkIdemFields, henv, hdate, hqty, hemail]
  refine ⟨hf, ?_, fun sha => by rw [hf]⟩
  subst hf1 hpa1
  simp [mkIdemFields, mkSessionParams]

theorem c3_idempotency_key_witness :
    ctxUsdA.env = ctxUsdB.env ∧
    resolveTour payloadA.tour = resolveTour payloadB.tour ∧
    strLower payloadA.customer.email = strLower payloadB.customer.email ∧
    mkIdemFields ctxUsdA payloadA tourGuatape = mkIdemFields ctxUsdB payloadB tourGuatape :=
  ⟨by decide, by decide, by decide,
    (c3_idempotency_key ctxUsdA ctxUsdB payloadA payloadB
      (mkSessionParams ctxUsdA payloadA tourGuatape) (mkSessionParams ctxUsdB payloadB tourGuatape)
      (mkIdemFields ctxUsdA payloadA tourGuatape) (mkIdemFields ctxUsdB payloadB tourGuatape)
      (by decide) (by decide) rfl rfl (by decide) (by decide) (by decide)).1⟩

/-! ## Helper lemmas about the webhook state machine -/


theorem countP_map_sid (l : List BookingRow) (f : BookingRow → BookingRow)
    (hf : ∀ r, (f r).stripe_session_id = r.stripe_session_id) (sid : String) :
    (l.map f).countP (fun r => r.stripe_session_id == sid) =
      l.countP (fun r => r.stripe_session_id == sid) := by
  induction l with
  | nil => rfl
  | cons a t ih => simp [List.countP_cons, hf, ih]

theorem updateFn_sid (sess : StripeSession) (ex : BookingRow) (r : BookingRow) :
    ((if r.id == ex.id then bookingUpdateOf sess r else r)).stripe_session_id =
      r.stripe_session_id := by
  by_cases hc : r.id = ex.id <;> simp [hc, bookingUpdateOf]

theorem upsert_sidCount (w : World) (db : DB) (sess : StripeSession) (pr : DB × Nat)
    (sid : String) (h : upsertBookingFromSession w db sess = .ok pr)
    (hle : sidCount db sid ≤ 1) : sidCount pr.1 sid ≤ 1 := by
  simp only [upsertBookingFromSession] at h
  split at h
  · cases h
  · split at h
    · rename_i ex hex
      injection h with h1
      subst h1
      unfold sidCount at hle ⊢
      simp only []
      rw [countP_map_sid _ _ (updateFn_sid sess ex) sid]
      exact hle
    · rename_i hnone
      injection h with h1
      subst h1
      unfold sidCount at hle ⊢
      simp only []
      rw [List.countP_append]
      by_cases hs : strTrim sess.id = sid
      · have hzero : db.bookings.countP (fun r => r.stripe_session_id == sid) = 0 := by
          rw [List.countP_eq_zero]
          intro a ha
          have := List.find?_eq_none.mp hnone a ha
          simpa [hs] using this
        simp [hzero, bookingInsertOf, List.countP_cons, hs]
      · have hrow : ((bookingInsertOf w db sess).stripe_session_id == sid) = false := by
          simp [bookingInsertOf, hs]
        simp [List.countP_cons, hrow]
        exact hle

theorem updateStatusFn_sid (st : BStatus) (ex : BookingRow) (r : BookingRow) :
    ((if r.id == ex.id then { r with status := st } else r)).stripe_session_id =
      r.stripe_session_id := by
  by_cases hc : r.id = ex.id <;> simp [hc]

theorem updateStatus_sidCount (db : DB) (sid0 sid : String) (st : BStatus) :
    sidCount (updateBookingStatusBySessionId db sid0 st) sid = sidCount db sid := by
  unfold updateBookingStatusBySessionId
  split
  · rfl
  · rename_i ex hex
    split
    · unfold sidCount
      simp only []
      rw [countP_map_sid _ _ (updateStatusFn_sid st ex) sid]
    · rfl

theorem updateStatus_events (db : DB) (sid0 : String) (st : BStatus) :
    (updateBookingStatusBySessionId db sid0 st).events = db.events := by
  unfold updateBookingStatusBySessionId
  split
  · rfl
  · split <;> rfl

theorem eventsExtended_refl (db : DB) : eventsExtended db db := ⟨[], (List.append_nil _).symm⟩

theorem eventsExtended_trans {a b c : DB} (h1 : eventsExtended a b) (h2 : eventsExtended b c) :
    eventsExtended a c := by
  obtain ⟨l1, e1⟩ := h1
  obtain ⟨l2, e2⟩ := h2
  exact ⟨l1 ++ l2, by rw [e2, e1, List.append_assoc]⟩

theorem eventsExtended_logEvent (db : DB) (t : String) (e s : Option String) :
    eventsExtended db (logEvent db t e s) := ⟨[⟨t, e, s⟩], rfl⟩

theorem upsert_eventsExtended (w : World) (db : DB) (sess : StripeSession) (pr : DB × Nat)
    (h : upsertBookingFromSession w db sess = .ok pr) : eventsExtended db pr.1 := by
  refine ⟨[], ?_⟩
  have : pr.1.events = db.events := by
    simp only [upsertBookingFromSession] at h
    split at h
    · cases h
    · split at h <;> (injection h with h1; subst h1; rfl)
  rw [this, List.append_nil]

theorem trySend_eventsExtended (cfg : WebhookCfg) (w : World) (db : DB) (sess : StripeSession) :
    eventsExtended db (trySendBookingEmail cfg w db sess).1 := by
  unfold trySendBookingEmail
  split_ifs <;> first
    | exact eventsExtended_refl db
    | exact eventsExtended_logEvent db _ _ _

theorem dispatch_eventsExtended (cfg : WebhookCfg) (w : World) (db : DB) :
    eventsExtended db (dispatchEvent cfg w db).2.1 := by
  simp only [dispatchEvent]
  cases hty : w.event.type <;> simp only []
  case checkoutSessionCompleted =>
    cases hu : upsertBookingFromSession w db w.event.session with
    | error e => exact eventsExtended_refl db
    | ok pr =>
      exact eventsExtended_trans
        (eventsExtended_trans (upsert_eventsExtended w db _ pr hu) (eventsExtended_logEvent _ _ _ _))
        (trySend_eventsExtended cfg w _ _)
  case asyncPaymentSucceeded =>
    cases hu : upsertBookingFromSession w db w.event.session with
    | error e => exact eventsExtended_refl db
    | ok pr =>
      exact eventsExtended_trans
        (eventsExtended_trans (upsert_eventsExtended w db _ pr hu) (eventsExtended_logEvent _ _ _ _))
        (trySend_eventsExtended cfg w _ _)
  case asyncPaymentFailed => exact eventsExtended_logEvent db _ _ _
  case sessionExpired =>
    refine eventsExtended_trans (b := if w.event.session.id == "" then db
      else updateBookingStatusBySessionId db w.event.session.id .canceled) ?_ ?_
    · split
      · exact eventsExtended_refl db
      · exact ⟨[], by rw [updateStatus_events, List.append_nil]⟩
    · exact eventsExtended_logEvent _ _ _ _
  case paymentIntentSucceeded =>
    cases hl : w.linkedSession (w.event.piId.getD "") with
    | none => exact eventsExtended_logEvent db _ _ _
    | some sess =>
      simp only []
      cases hu : upsertBookingFromSession w db sess with
      | error e => exact eventsExtended_logEvent db _ _ _
      | ok pr =>
        exact eventsExtended_trans
          (eventsExtended_trans (upsert_eventsExtended w db _ pr hu) (eventsExtended_logEvent _ _ _ _))
          (trySend_eventsExtended cfg w _ _)
  case paymentIntentFailed => exact eventsExtended_logEvent db _ _ _
  case chargeRefunded =>
    cases hp : w.event.piId with
    | none => exact eventsExtended_refl db
    | some piId =>
      simp only []
      split
      · exact eventsExtended_refl db
      · cases hl : w.linkedSession piId with
        | some sess =>
          refine eventsExtended_trans (b := updateBookingStatusBySessionId db sess.id .canceled) ?_ ?_
          · exact ⟨[], by rw [updateStatus_events, List.append_nil]⟩
          · exact eventsExtended_logEvent _ _ _ _
        | none => exact eventsExtended_logEvent db _ _ _
  case other => exact eventsExtended_logEvent db _ _ _

theorem trySend_bookings (cfg : WebhookCfg) (w : World) (db : DB) (sess : StripeSession) :
    (trySendBookingEmail cfg w db sess).1.bookings = db.bookings := by
  unfold trySendBookingEmail
  split_ifs <;> rfl

theorem trySend_sends_length (cfg : WebhookCfg) (w : World) (db : DB) (sess : StripeSession) :
    (trySendBookingEmail cfg w db sess).2.length ≤ 1 := by
  unfold trySendBookingEmail
  split_ifs <;> simp

theorem sidCount_bookings_eq {db1 db2 : DB} (h : db1.bookings = db2.bookings) (sid : String) :
    sidCount db1 sid = sidCount db2 sid := by
  unfold sidCount
  rw [h]

theorem dispatch_sidCount (cfg : WebhookCfg) (w : World) (db : DB) (sid : String)
    (hle : sidCount db sid ≤ 1) : sidCount (dispatchEvent cfg w db).2.1 sid ≤ 1 := by
  simp only [dispatchEvent]
  cases hty : w.event.type <;> simp only []
  case checkoutSessionCompleted =>
    cases hu : upsertBookingFromSession w db w.event.session with
    | error e => exact hle
    | ok pr =>
      rw [sidCount_bookings_eq (trySend_bookings cfg w _ _) sid]
      exact upsert_sidCount w db _ pr sid hu hle
  case asyncPaymentSucceeded =>
    cases hu : upsertBookingFromSession w db w.event.session with
    | error e => exact hle
    | ok pr =>
      rw [sidCount_bookings_eq (trySend_bookings cfg w _ _) sid]
      exact upsert_sidCount w db _ pr sid hu hle
  case asyncPaymentFailed => exact hle
  case sessionExpired =>
    have hbk : (logEvent (if w.event.session.id == "" then db
        else updateBookingStatusBySessionId db w.event.session.id .canceled)
        "stripe_checkout_expired" (some w.event.id) (some w.event.session.id)).bookings =
        (if w.event.session.id == "" then db
          else updateBookingStatusBySessionId db w.event.session.id .canceled).bookings := rfl
    rw [sidCount_bookings_eq hbk sid]
    split
    · exact hle
    · rw [updateStatus_sidCount]
      exact hle
  case paymentIntentSucceeded =>
    cases hl : w.linkedSession (w.event.piId.getD "") with
    | none => exact hle
    | some sess =>
      simp only []
      cases hu : upsertBookingFromSession w db sess with
      | error e => exact hle
      | ok pr =>
        rw [sidCount_bookings_eq (trySend_bookings cfg w _ _) sid]
        exact upsert_sidCount w db _ pr sid hu hle
  case paymentIntentFailed => exact hle
  case chargeRefunded =>
    cases hp : w.event.piId with
    | none => exact hle
    | some piId =>
      simp only []
      split
      · exact hle
      · cases hl : w.linkedSession piId with
        | some sess =>
          have hbk : (logEvent (updateBookingStatusBySessionId db sess.id .canceled)
              "stripe_charge_refunded" (some w.event.id) (some sess.id)).bookings =
              (updateBookingStatusBySessionId db sess.id .canceled).bookings := rfl
          rw [sidCount_bookings_eq hbk sid, updateStatus_sidCount]
          exact hle
        | none => exact hle
  case other => exact hle

theorem dispatch_sends_length (cfg : WebhookCfg) (w : World) (db : DB) :
    (dispatchEvent cfg w db).2.2.sends.length ≤ 1 := by
  simp only [dispatchEvent]
  cases hty : w.event.type <;> simp only []
  case checkoutSessionCompleted =>
    cases hu : upsertBookingFromSession w db w.event.session with
    | error e => simp
    | ok pr => exact trySend_sends_length cfg w _ _
  case asyncPaymentSucceeded =>
    cases hu : upsertBookingFromSession w db w.event.session with
    | error e => simp
    | ok pr => exact trySend_sends_length cfg w _ _
  case asyncPaymentFailed => simp
  case sessionExpired => simp
  case paymentIntentSucceeded =>
    cases hl : w.linkedSession (w.event.piId.getD "") with
    | none => simp
    | some sess =>
      simp only []
      cases hu : upsertBookingFromSession w db sess with
      | error e => simp
      | ok pr => exact trySend_sends_length cfg w _ _
  case paymentIntentFailed => simp
  case chargeRefunded =>
    cases hp : w.event.piId with
    | none => simp
    | some piId =>
      simp only []
      split
      · simp
      · cases hl : w.linkedSession piId with
        | some sess => simp
        | none => simp
  case other => simp

theorem invoiceMarked_logEvent (db : DB) (t : String) (e s : Option String) (sid : String) :
    invoiceMarked (logEvent db t e s) sid =
      (invoiceMarked db sid || (t == "invoice_sent" && s == some sid)) := by
  unfold invoiceMarked logEvent
  simp

theorem invoiceMarked_mono {db db' : DB} (h : eventsExtended db db') {sid : String}
    (hm : invoiceMarked db sid = true) : invoiceMarked db' sid = true := by
  obtain ⟨l, hl⟩ := h
  unfold invoiceMarked at hm ⊢
  rw [hl, List.any_append, hm, Bool.true_or]

theorem invoiceMarked_mono_false {db db' : DB} (h : eventsExtended db db') {sid : String}
    (hm : invoiceMarked db' sid = false) : invoiceMarked db sid = false := by
  cases hx : invoiceMarked db sid
  · rfl
  · rw [invoiceMarked_mono h hx] at hm
    cases hm

theorem trySend_characterization (cfg : WebhookCfg) (w : World) (db : DB) (sess : StripeSession) :
    trySendBookingEmail cfg w db sess = (db, []) ∨
    (w.pdfOk = false ∧
      trySendBookingEmail cfg w db sess = (logEvent db "invoice_send_exception" none none, [])) ∨
    (invoiceMarked db sess.id = false ∧ w.emailOk = true ∧
      trySendBookingEmail cfg w db sess =
        (logEvent db "invoice_sent" none (some sess.id),
          [⟨sessionRecipient sess, sess.id, true⟩])) ∨
    (invoiceMarked db sess.id = false ∧ w.emailOk = false ∧
      trySendBookingEmail cfg w db sess =
        (logEvent db "invoice_send_error" none (some sess.id),
          [⟨sessionRecipient sess, sess.id, false⟩])) := by
  unfold trySendBookingEmail
  split_ifs with h1 h2 h3 h4 h5
  · exact Or.inl rfl
  · exact Or.inl rfl
  · exact Or.inl rfl
  · exact Or.inr (Or.inl ⟨by simpa using h4, rfl⟩)
  · exact Or.inr (Or.inr (Or.inl ⟨by simpa using h3, h5, rfl⟩))
  · exact Or.inr (Or.inr (Or.inr ⟨by simpa using h3, by simpa using h5, rfl⟩))

theorem trySend_okSend_marks (cfg : WebhookCfg) (w : World) (db : DB) (sess : StripeSession)
    (sid : String) (hge : 1 ≤ okSendCount (trySendBookingEmail cfg w db sess).2 sid) :
    invoiceMarked db sid = false ∧
    invoiceMarked (trySendBookingEmail cfg w db sess).1 sid = true := by
  rcases trySend_characterization cfg w db sess with h | ⟨_, h⟩ | ⟨hm, _, h⟩ | ⟨hm, _, h⟩ <;>
    rw [h] at hge ⊢
  · simp [okSendCount] at hge
  · simp [okSendCount] at hge
  · have hsid : sess.id = sid := by
      by_cases hne : sess.id = sid
      · exact hne
      · exfalso
        simp [okSendCount, List.countP_cons, hne] at hge
    subst hsid
    refine ⟨hm, ?_⟩
    rw [invoiceMarked_logEvent]
    simp
  · simp [okSendCount, List.countP_cons] at hge

theorem dispatch_okSend_marks (cfg : WebhookCfg) (w : World) (db : DB) (sid : String)
    (hge : 1 ≤ okSendCount (dispatchEvent cfg w db).2.2.sends sid) :
    invoiceMarked db sid = false ∧
    invoiceMarked (dispatchEvent cfg w db).2.1 sid = true := by
  simp only [dispatchEvent] at hge ⊢
  cases hty : w.event.type <;> rw [hty] at hge <;> simp only [] at hge ⊢
  case checkoutSessionCompleted =>
    cases hu : upsertBookingFromSession w db w.event.session with
    | error e =>
      rw [hu] at hge
      simp [okSendCount] at hge
    | ok pr =>
      rw [hu] at hge
      obtain ⟨db1, bid⟩ := pr
      simp only [] at hge ⊢
      have hspec := trySend_okSend_marks cfg w
        (logEvent db1 "stripe_checkout_completed" (some w.event.id) (some w.event.session.id))
        w.event.session sid hge
      refine ⟨?_, hspec.2⟩
      exact invoiceMarked_mono_false
        (eventsExtended_trans (upsert_eventsExtended w db _ _ hu) (eventsExtended_logEvent _ _ _ _))
        hspec.1
  case asyncPaymentSucceeded =>
    cases hu : upsertBookingFromSession w db w.event.session with
    | error e =>
      rw [hu] at hge
      simp [okSendCount] at hge
    | ok pr =>
      rw [hu] at hge
      obtain ⟨db1, bid⟩ := pr
      simp only [] at hge ⊢
      have hspec := trySend_okSend_marks cfg w
        (logEvent db1 "stripe_checkout_async_succeeded" (some w.event.id) (some w.event.session.id))
        w.event.session sid hge
      refine ⟨?_, hspec.2⟩
      exact invoiceMarked_mono_false
        (eventsExtended_trans (upsert_eventsExtended w db _ _ hu) (eventsExtended_logEvent _ _ _ _))
        hspec.1
  case asyncPaymentFailed => simp [okSendCount] at hge
  case sessionExpired => simp [okSendCount] at hge
  case paymentIntentSucceeded =>
    cases hl : w.linkedSession (w.event.piId.getD "") with
    | none =>
      rw [hl] at hge
      simp [okSendCount] at hge
    | some sess =>
      rw [hl] at hge
      simp only [] at hge ⊢
      cases hu : upsertBookingFromSession w db sess with
      | error e =>
        rw [hu] at hge
        simp [okSendCount] at hge
      | ok pr =>
        rw [hu] at hge
        obtain ⟨db1, bid⟩ := pr
        simp only [] at hge ⊢
        have hspec := trySend_okSend_marks cfg w
          (logEvent db1 "stripe_pi_succeeded_linked" (some w.event.id) (some sess.id))
          sess sid hge
        refine ⟨?_, hspec.2⟩
        exact invoiceMarked_mono_false
          (eventsExtended_trans (upsert_eventsExtended w db _ _ hu) (eventsExtended_logEvent _ _ _ _))
          hspec.1
  case paymentIntentFailed => simp [okSendCount] at hge
  case chargeRefunded =>
    cases hp : w.event.piId with
    | none =>
      rw [hp] at hge
      simp [okSendCount] at hge
    | some piId =>
      rw [hp] at hge
      simp only [] at hge
      split at hge
      · simp [okSendCount] at hge
      · cases hl : w.linkedSession piId with
        | some sess =>
          rw [hl] at hge
          simp [okSendCount] at hge
        | none =>
          rw [hl] at hge
          simp [okSendCount] at hge
  case other => simp [okSendCount] at hge

theorem upsert_ok_of_sid (w : World) (db : DB) (sess : StripeSession)
    (h : ¬ strTrim sess.id = "") : ∃ pr, upsertBookingFromSession w db sess = .ok pr := by
  simp only [upsertBookingFromSession]
  rw [if_neg (by simpa using h)]
  split <;> exact ⟨_, rfl⟩

theorem dispatch_completed_trace (cfg : WebhookCfg) (w : World) (db : DB)
    (hty : w.event.type = .checkoutSessionCompleted)
    (hsid : ¬ strTrim w.event.session.id = "") :
    (dispatchEvent cfg w db).2.2.upserts = [strTrim w.event.session.id] ∧
    (dispatchEvent cfg w db).1 = none := by
  obtain ⟨pr, hu⟩ := upsert_ok_of_sid w db w.event.session hsid
  simp only [dispatchEvent, hty]
  rw [hu]
  obtain ⟨db1, bid⟩ := pr
  exact ⟨rfl, rfl⟩

-- POST-level lemmas
theorem post_eventsExtended (cfg : WebhookCfg) (w : World) (db : DB) :
    eventsExtended db (webhookPOST cfg w db).2.1 := by
  unfold webhookPOST
  split
  · split <;> exact eventsExtended_refl db
  · split
    · exact eventsExtended_refl db
    · split
      · exact eventsExtended_refl db
      · simp only [seenOrMarkEvent]
        by_cases hseen : seenEvent db w.event.id
        · simp only [hseen, if_true]
          exact eventsExtended_refl db
        · simp only [hseen, if_false, Bool.false_eq_true]
          have hbase := eventsExtended_logEvent db "stripe_event_seen" (some w.event.id) none
          have hd := dispatch_eventsExtended cfg w (logEvent db "stripe_event_seen" (some w.event.id) none)
          split
          · split <;> exact eventsExtended_trans hbase hd
          · exact eventsExtended_trans hbase hd

theorem post_sidCount (cfg : WebhookCfg) (w : World) (db : DB) (sid : String)
    (hle : sidCount db sid ≤ 1) : sidCount (webhookPOST cfg w db).2.1 sid ≤ 1 := by
  unfold webhookPOST
  split
  · split <;> exact hle
  · split
    · exact hle
    · split
      · exact hle
      · simp only [seenOrMarkEvent]
        by_cases hseen : seenEvent db w.event.id
        · simp only [hseen, if_true]
          exact hle
        · simp only [hseen, if_false, Bool.false_eq_true]
          have hle1 : sidCount (logEvent db "stripe_event_seen" (some w.event.id) none) sid ≤ 1 := hle
          have hd := dispatch_sidCount cfg w (logEvent db "stripe_event_seen" (some w.event.id) none) sid hle1
          split
          · split <;> exact hd
          · exact hd

theorem seenEvent_logEvent (db : DB) (t : String) (e s : Option String) (eid : String) :
    seenEvent (logEvent db t e s) eid =
      (seenEvent db eid || (t == "stripe_event_seen" && e == some eid)) := by
  unfold seenEvent logEvent
  simp

theorem seenEvent_mono {db db' : DB} (h : eventsExtended db db') {eid : String}
    (hm : seenEvent db eid = true) : seenEvent db' eid = true := by
  obtain ⟨l, hl⟩ := h
  unfold seenEvent at hm ⊢
  rw [hl, List.any_append, hm, Bool.true_or]

/-- Either the webhook POST does not reach the dispatcher (and leaves the
state untouched with an empty trace), or the full verified-signature fresh
path ran: the state and trace are those of the dispatcher started on the
seen-marked state. -/
theorem post_characterization (cfg : WebhookCfg) (w : World) (db : DB) :
    ((webhookPOST cfg w db).2.1 = db ∧ (webhookPOST cfg w db).2.2 = Trace.empty) ∨
    (jsTruthyOpt cfg.webhookSecret = true ∧ jsTruthyOpt cfg.stripeKey = true ∧
     w.sigPresent = true ∧ w.sigValid = true ∧
     seenEvent db w.event.id = false ∧
     (webhookPOST cfg w db).2.1 =
       (dispatchEvent cfg w (logEvent db "stripe_event_seen" (some w.event.id) none)).2.1 ∧
     (webhookPOST cfg w db).2.2 =
       (dispatchEvent cfg w (logEvent db "stripe_event_seen" (some w.event.id) none)).2.2) := by
  unfold webhookPOST
  split
  · split <;> exact Or.inl ⟨rfl, rfl⟩
  · rename_i hcfg
    have hsec : jsTruthyOpt cfg.webhookSecret = true := by
      cases h1 : jsTruthyOpt cfg.webhookSecret <;> cases h2 : jsTruthyOpt cfg.stripeKey <;>
        simp [h1, h2] at hcfg ⊢
    have hkey : jsTruthyOpt cfg.stripeKey = true := by
      cases h1 : jsTruthyOpt cfg.webhookSecret <;> cases h2 : jsTruthyOpt cfg.stripeKey <;>
        simp [h1, h2] at hcfg ⊢
    split
    · exact Or.inl ⟨rfl, rfl⟩
    · rename_i hsp
      have hp : w.sigPresent = true := by
        cases h1 : w.sigPresent <;> simp [h1] at hsp ⊢
      split
      · exact Or.inl ⟨rfl, rfl⟩
      · rename_i hsv
        have hv : w.sigValid = true := by
          cases h1 : w.sigValid <;> simp [h1] at hsv ⊢
        simp only [seenOrMarkEvent]
        by_cases hseen : seenEvent db w.event.id
        · simp only [hseen, if_true]
          exact Or.inl ⟨by trivial, by trivial⟩
        · simp only [hseen, if_false, Bool.false_eq_true]
          refine Or.inr ⟨hsec, hkey, hp, hv, by simp [hseen], ?_⟩
          split <;> (try split) <;> exact ⟨by trivial, by trivial⟩

theorem post_okSend_marks (cfg : WebhookCfg) (w : World) (db : DB) (sid : String)
    (hge : 1 ≤ okSendCount (webhookPOST cfg w db).2.2.sends sid) :
    invoiceMarked db sid = false ∧
    invoiceMarked (webhookPOST cfg w db).2.1 sid = true := by
  rcases post_characterization cfg w db with ⟨hdb, htr⟩ | ⟨_, _, _, _, _, hdb, htr⟩
  · rw [htr] at hge
    simp [okSendCount, Trace.empty] at hge
  · rw [htr] at hge
    rw [hdb]
    have hm := dispatch_okSend_marks cfg w (logEvent db "stripe_event_seen" (some w.event.id) none) sid hge
    exact ⟨invoiceMarked_mono_false (eventsExtended_logEvent db _ _ _) hm.1, hm.2⟩

theorem post_marks_seen (cfg : WebhookCfg) (w : World) (db : DB)
    (hsec : jsTruthyOpt cfg.webhookSecret = true)
    (hkey : jsTruthyOpt cfg.stripeKey = true)
    (hp : w.sigPresent = true) (hv : w.sigValid = true) :
    seenEvent (webhookPOST cfg w db).2.1 w.event.id = true := by
  unfold webhookPOST
  rw [hsec, hkey, hp, hv]
  simp only [Bool.and_self, Bool.not_true, Bool.false_eq_true, if_false, seenOrMarkEvent]
  by_cases hseen : seenEvent db w.event.id
  · simp [hseen]
  · simp only [hseen, if_false, Bool.false_eq_true]
    have hs1 : seenEvent (logEvent db "stripe_event_seen" (some w.event.id) none) w.event.id = true := by
      rw [seenEvent_logEvent]
      simp
    have hd := seenEvent_mono
      (dispatch_eventsExtended cfg w (logEvent db "stripe_event_seen" (some w.event.id) none)) hs1
    split <;> (try split) <;> exact hd

theorem post_duplicate (cfg : WebhookCfg) (w : World) (db : DB)
    (hsec : jsTruthyOpt cfg.webhookSecret = true)
    (hkey : jsTruthyOpt cfg.stripeKey = true)
    (hp : w.sigPresent = true) (hv : w.sigValid = true)
    (hseen : seenEvent db w.event.id = true) :
    webhookPOST cfg w db = ({ status := 200, received := true, duplicate := true }, db, {}) := by
  unfold webhookPOST
  rw [hsec, hkey, hp, hv]
  simp [seenOrMarkEvent, hseen]

theorem post_fresh_trace (cfg : WebhookCfg) (w : World) (db : DB)
    (hsec : jsTruthyOpt cfg.webhookSecret = true)
    (hkey : jsTruthyOpt cfg.stripeKey = true)
    (hp : w.sigPresent = true) (hv : w.sigValid = true)
    (hfresh : seenEvent db w.event.id = false) :
    (webhookPOST cfg w db).2.2 =
      (dispatchEvent cfg w (logEvent db "stripe_event_seen" (some w.event.id) none)).2.2 := by
  unfold webhookPOST
  rw [hsec, hkey, hp, hv]
  simp only [Bool.and_self, Bool.not_true, Bool.false_eq_true, if_false, seenOrMarkEvent, hfresh]
  split <;> (try split) <;> rfl

theorem post_sends_length (cfg : WebhookCfg) (w : World) (db : DB) :
    (webhookPOST cfg w db).2.2.sends.length ≤ 1 := by
  rcases post_characterization cfg w db with ⟨_, htr⟩ | ⟨_, _, _, _, _, _, htr⟩
  · rw [htr]
    simp [Trace.empty]
  · rw [htr]
    exact dispatch_sends_length cfg w _

theorem post_marker_mono (cfg : WebhookCfg) (w : World) (db : DB) (sid : String)
    (hm : invoiceMarked db sid = true) :
    invoiceMarked (webhookPOST cfg w db).2.1 sid = true :=
  invoiceMarked_mono (post_eventsExtended cfg w db) hm

theorem post_okSend_le (cfg : WebhookCfg) (w : World) (db : DB) (sid : String) :
    okSendCount (webhookPOST cfg w db).2.2.sends sid ≤ 1 :=
  le_trans (List.countP_le_length _) (post_sends_length cfg w db)

theorem totalOkSends_cons (t : Trace) (ts : List Trace) (sid : String) :
    totalOkSends (t :: ts) sid = okSendCount t.sends sid + totalOkSends ts sid := by
  simp [totalOkSends]

theorem runAll_sidCount (cfg : WebhookCfg) (ws : List World) (db0 : DB) (sid : String)
    (h : ∀ s, sidCount db0 s ≤ 1) : sidCount (runAll cfg ws db0).1 sid ≤ 1 := by
  induction ws generalizing db0 with
  | nil => exact h sid
  | cons w rest ih =>
    simp only [runAll]
    exact ih (webhookPOST cfg w db0).2.1 (fun s => post_sidCount cfg w db0 s (h s))

theorem runAll_okSends (cfg : WebhookCfg) (ws : List World) (db : DB) (sid : String) :
    (invoiceMarked db sid = true → totalOkSends (runAll cfg ws db).2 sid = 0) ∧
    totalOkSends (runAll cfg ws db).2 sid ≤ 1 := by
  induction ws generalizing db with
  | nil => exact ⟨fun _ => rfl, by simp [totalOkSends, runAll]⟩
  | cons w rest ih =>
    have hcons : (runAll cfg (w :: rest) db).2 =
        (webhookPOST cfg w db).2.2 :: (runAll cfg rest (webhookPOST cfg w db).2.1).2 := rfl
    rw [hcons, totalOkSends_cons]
    constructor
    · intro hm
      have h0 : okSendCount (webhookPOST cfg w db).2.2.sends sid = 0 := by
        by_contra hne
        have hge : 1 ≤ okSendCount (webhookPOST cfg w db).2.2.sends sid :=
          Nat.one_le_iff_ne_zero.mpr hne
        have hx := (post_okSend_marks cfg w db sid hge).1
        rw [hm] at hx
        cases hx
      rw [h0, (ih _).1 (post_marker_mono cfg w db sid hm)]
    · by_cases hz : okSendCount (webhookPOST cfg w db).2.2.sends sid = 0
      · rw [hz]
        simpa using (ih _).2
      · have hge : 1 ≤ okSendCount (webhookPOST cfg w db).2.2.sends sid :=
          Nat.one_le_iff_ne_zero.mpr hz
        have hmarks := post_okSend_marks cfg w db sid hge
        have hle1 := post_okSend_le cfg w db sid
        have hrest := (ih _).1 hmarks.2
        omega

theorem invoiceMarked_events_eq {db1 db2 : DB} (h : db1.events = db2.events) (sid : String) :
    invoiceMarked db1 sid = invoiceMarked db2 sid := by
  unfold invoiceMarked
  rw [h]

theorem trySend_active (cfg : WebhookCfg) (w : World) (db : DB) (sess : StripeSession)
    (hres : jsTruthyOpt cfg.resendApiKey = true)
    (hto : ¬ sessionRecipient sess = "")
    (hmark : invoiceMarked db sess.id = false)
    (hpdf : w.pdfOk = true) :
    trySendBookingEmail cfg w db sess =
      (logEvent db (if w.emailOk then "invoice_sent" else "invoice_send_error") none (some sess.id),
        [⟨sessionRecipient sess, sess.id, w.emailOk⟩]) := by
  unfold trySendBookingEmail
  rw [hres, hpdf, hmark]
  simp only [Bool.not_true, Bool.false_eq_true, if_false]
  rw [if_neg (by simpa using hto)]
  cases he : w.emailOk <;> simp [he]

theorem post_fresh_db (cfg : WebhookCfg) (w : World) (db : DB)
    (hsec : jsTruthyOpt cfg.webhookSecret = true)
    (hkey : jsTruthyOpt cfg.stripeKey = true)
    (hp : w.sigPresent = true) (hv : w.sigValid = true)
    (hfresh : seenEvent db w.event.id = false) :
    (webhookPOST cfg w db).2.1 =
      (dispatchEvent cfg w (logEvent db "stripe_event_seen" (some w.event.id) none)).2.1 := by
  unfold webhookPOST
  rw [hsec, hkey, hp, hv]
  simp only [Bool.and_self, Bool.not_true, Bool.false_eq_true, if_false, seenOrMarkEvent, hfresh]
  split <;> (try split) <;> rfl

theorem upsert_ok_events (w : World) (db : DB) (sess : StripeSession) (pr : DB × Nat)
    (h : upsertBookingFromSession w db sess = .ok pr) : pr.1.events = db.events := by
  simp only [upsertBookingFromSession] at h
  split at h
  · cases h
  · split at h <;> (injection h with h1; subst h1; rfl)

theorem upsert_pending_row (w : World) (db : DB) (sess : StripeSession) (pr : DB × Nat)
    (h : upsertBookingFromSession w db sess = .ok pr)
    (hps : ¬ sess.payment_status = "paid") :
    ∃ r ∈ pr.1.bookings, r.stripe_session_id = strTrim sess.id ∧ r.status = .pending := by
  have hstat : bookingStatusOf sess = .pending := by
    unfold bookingStatusOf
    rw [if_neg (by simpa using hps)]
  simp only [upsertBookingFromSession] at h
  split at h
  · cases h
  · split at h
    · rename_i ex hex
      injection h with h1
      subst h1
      refine ⟨bookingUpdateOf sess ex, ?_, ?_, ?_⟩
      · have hmem := List.mem_map_of_mem
          (fun r => if r.id == ex.id then bookingUpdateOf sess r else r)
          (List.mem_of_find?_eq_some hex)
        simpa using hmem
      · have := List.find?_some hex
        simpa [bookingUpdateOf] using this
      · simp [bookingUpdateOf, hstat]
    · injection h with h1
      subst h1
      exact ⟨bookingInsertOf w db sess, by simp, by simp [bookingInsertOf], by simp [bookingInsertOf, hstat]⟩

theorem dispatch_completed_formula (cfg : WebhookCfg) (w : World) (db : DB) (pr : DB × Nat)
    (hty : w.event.type = .checkoutSessionCompleted)
    (hu : upsertBookingFromSession w db w.event.session = .ok pr) :
    dispatchEvent cfg w db =
      (none,
        (trySendBookingEmail cfg w
          (logEvent pr.1 "stripe_checkout_completed" (some w.event.id) (some w.event.session.id))
          w.event.session).1,
        { upserts := [strTrim w.event.session.id],
          sends := (trySendBookingEmail cfg w
            (logEvent pr.1 "stripe_checkout_completed" (some w.event.id) (some w.event.session.id))
            w.event.session).2 }) := by
  simp only [dispatchEvent, hty]
  rw [hu]


/-- C4. Event-level idempotency: delivering the same event id twice
sequentially (secrets configured, both deliveries signature-valid) makes the
second delivery answer 200 `duplicate` from the seen-events ledger, leaving
the state untouched with an empty trace; across the pair at most one email
call happens, and for a fresh `checkout.session.completed` event with a
non-empty session id the pair performs exactly one booking upsert. -/
theorem c4_event_idempotency (cfg : WebhookCfg) (w1 w2 : World) (db0 : DB)
    (hsec : jsTruthyOpt cfg.webhookSecret = true)
    (hkey : jsTruthyOpt cfg.stripeKey = true)
    (hp1 : w1.sigPresent = true) (hv1 : w1.sigValid = true)
    (hp2 : w2.sigPresent = true) (hv2 : w2.sigValid = true)
    (hid : w2.event.id = w1.event.id) :
    (webhookPOST cfg w2 (webhookPOST cfg w1 db0).2.1).1 =
      { status := 200, received := true, duplicate := true } ∧
    (webhookPOST cfg w2 (webhookPOST cfg w1 db0).2.1).2.1 = (webhookPOST cfg w1 db0).2.1 ∧
    (webhookPOST cfg w2 (webhookPOST cfg w1 db0).2.1).2.2 = Trace.empty ∧
    (webhookPOST cfg w1 db0).2.2.sends.length +
      (webhookPOST cfg w2 (webhookPOST cfg w1 db0).2.1).2.2.sends.length ≤ 1 ∧
    (w1.event.type = .checkoutSessionCompleted → ¬ strTrim w1.event.session.id = "" →
      seenEvent db0 w1.event.id = false →
      (webhookPOST cfg w1 db0).2.2.upserts.length +
        (webhookPOST cfg w2 (webhookPOST cfg w1 db0).2.1).2.2.upserts.length = 1) := by
  have hseen1 : seenEvent (webhookPOST cfg w1 db0).2.1 w2.event.id = true := by
    rw [hid]
    exact post_marks_seen cfg w1 db0 hsec hkey hp1 hv1
  have hdup := post_duplicate cfg w2 (webhookPOST cfg w1 db0).2.1 hsec hkey hp2 hv2 hseen1
  rw [hdup]
  refine ⟨rfl, rfl, rfl, ?_, ?_⟩
  · have := post_sends_length cfg w1 db0
    simpa using this
  · intro hty hsid hfresh
    have htr := post_fresh_trace cfg w1 db0 hsec hkey hp1 hv1 hfresh
    rw [htr]
    have hct := dispatch_completed_trace cfg w1
      (logEvent db0 "stripe_event_seen" (some w1.event.id) none) hty hsid
    rw [hct.1]
    rfl

theorem c4_event_idempotency_witness :
    jsTruthyOpt cfgHook.webhookSecret = true ∧
    jsTruthyOpt cfgHook.stripeKey = true ∧
    worldPaid.sigPresent = true ∧ worldPaid.sigValid = true ∧
    worldPaid.event.id = worldPaid.event.id ∧
    ((webhookPOST cfgHook worldPaid (webhookPOST cfgHook worldPaid {}).2.1).1 =
      { status := 200, received := true, duplicate := true } ∧
     (webhookPOST cfgHook worldPaid (webhookPOST cfgHook worldPaid {}).2.1).2.1 =
       (webhookPOST cfgHook worldPaid {}).2.1 ∧
     (webhookPOST cfgHook worldPaid (webhookPOST cfgHook worldPaid {}).2.1).2.2 = Trace.empty ∧
     (webhookPOST cfgHook worldPaid {}).2.2.sends.length +
       (webhookPOST cfgHook worldPaid (webhookPOST cfgHook worldPaid {}).2.1).2.2.sends.length ≤ 1 ∧
     (worldPaid.event.type = .checkoutSessionCompleted →
       ¬ strTrim worldPaid.event.session.id = "" →
       seenEvent ({} : DB) worldPaid.event.id = false →
       (webhookPOST cfgHook worldPaid {}).2.2.upserts.length +
         (webhookPOST cfgHook worldPaid
           (webhookPOST cfgHook worldPaid {}).2.1).2.2.upserts.length = 1)) :=
  ⟨by decide, by decide, by decide, by decide, rfl,
    c4_event_idempotency cfgHook worldPaid worldPaid {} (by decide) (by decide)
      (by decide) (by decide) (by decide) (by decide) rfl⟩

/-- C5. Booking upsert uniqueness: starting from an empty store, any
sequence of sequentially processed webhook deliveries leaves at most one
booking row per `stripe_session_id` — the upsert updates an existing row in
place and inserts only when no row for the id exists. -/
theorem c5_booking_upsert_uniqueness (cfg : WebhookCfg) (ws : List World) (sid : String) :
    sidCount (runAll cfg ws {}).1 sid ≤ 1 :=
  runAll_sidCount cfg ws {} sid (fun s => by simp [sidCount])

/-- C6. Notification at-most-once per session: across any sequence of
sequentially processed webhook deliveries, at most one successful
confirmation-email send happens for a given session id — the `invoice_sent`
marker is checked before sending and recorded only after a successful send,
covering distinct paid-equivalent events that resolve to the same session. -/
theorem c6_notification_at_most_once (cfg : WebhookCfg) (ws : List World) (db0 : DB)
    (sid : String) : totalOkSends (runAll cfg ws db0).2 sid ≤ 1 :=
  (runAll_okSends cfg ws db0 sid).2

/-- C8 counterexample. At a delivery where the PDF render throws while the
email provider, recipient and marker state would all have allowed a send,
the handler sends no email at all (the claim asserts an email without the
attachment is still sent) and only logs `invoice_send_exception`. -/
theorem c8_pdf_failure_counterexample :
    worldPdfFail.pdfOk = false ∧
    jsTruthyOpt cfgHook.resendApiKey = true ∧
    ¬ sessionRecipient sessPaid = "" ∧
    invoiceMarked ({} : DB) sessPaid.id = false ∧
    (webhookPOST cfgHook worldPdfFail {}).2.2.sends = [] ∧
    (webhookPOST cfgHook worldPdfFail {}).2.1.events.any
      (fun r => r.type == "invoice_send_exception") = true := by
  decide

/-- C8 amended. If `buildInvoicePdf` throws while dispatching the
notification, no email is sent at all for that delivery: the exception is
caught, `invoice_send_exception` is logged (with a null session id), and no
`invoice_sent` marker is recorded. -/
theorem c8_pdf_failure_amended (cfg : WebhookCfg) (w : World) (db : DB) (sess : StripeSession)
    (h : w.pdfOk = false) :
    (trySendBookingEmail cfg w db sess).2 = [] ∧
    invoiceMarked (trySendBookingEmail cfg w db sess).1 sess.id = invoiceMarked db sess.id ∧
    (jsTruthyOpt cfg.resendApiKey = true →
      ¬ sessionRecipient sess = "" →
      invoiceMarked db sess.id = false →
      (trySendBookingEmail cfg w db sess).1 = logEvent db "invoice_send_exception" none none) := by
  unfold trySendBookingEmail
  rw [h]
  simp only [Bool.not_false, if_true]
  split_ifs with h1 h2 h3
  · refine ⟨rfl, rfl, fun ha _ _ => ?_⟩
    simp [ha] at h1
  · refine ⟨rfl, rfl, fun _ hb _ => ?_⟩
    exact absurd (by simpa using h2) hb
  · refine ⟨rfl, rfl, fun _ _ hc => ?_⟩
    rw [h3] at hc
    cases hc
  · refine ⟨rfl, ?_, fun _ _ _ => rfl⟩
    rw [invoiceMarked_logEvent]
    simp

theorem c8_pdf_failure_amended_witness :
    worldPdfFail.pdfOk = false ∧
    ((trySendBookingEmail cfgHook worldPdfFail {} sessPaid).2 = [] ∧
     invoiceMarked (trySendBookingEmail cfgHook worldPdfFail {} sessPaid).1 sessPaid.id =
       invoiceMarked ({} : DB) sessPaid.id ∧
     (jsTruthyOpt cfgHook.resendApiKey = true →
       ¬ sessionRecipient sessPaid = "" →
       invoiceMarked ({} : DB) sessPaid.id = false →
       (trySendBookingEmail cfgHook worldPdfFail {} sessPaid).1 =
         logEvent {} "invoice_send_exception" none none)) :=
  ⟨by decide, c8_pdf_failure_amended cfgHook worldPdfFail {} sessPaid (by decide)⟩

/-- C9 counterexample. A `checkout.session.completed` event whose session
has `payment_status = "unpaid"` records the booking as pending and still
sends the confirmation email — the claim asserts no email is sent for such
an event. -/
theorem c9_pending_email_counterexample :
    ¬ sessUnpaid.payment_status = "paid" ∧
    (webhookPOST cfgHook worldUnpaid {}).2.1.bookings.map
      (fun r => (r.stripe_session_id, r.status)) = [("cs_1", BStatus.pending)] ∧
    (webhookPOST cfgHook worldUnpaid {}).2.2.sends =
      [⟨"ana@example.com", "cs_1", true⟩] := by
  decide

/-- C9 amended. The notification dispatch is attempted on every
`checkout.session.completed` event regardless of the session's
`paymentStatus`: under a fresh, signature-valid delivery with the email
provider configured, a recipient present, no prior marker and a successful
PDF render, the email provider is called (send outcome tracking
`w.emailOk`) even though `payment_status ≠ 'paid'` records the booking as
pending. -/
theorem c9_pending_notification_amended (cfg : WebhookCfg) (w : World) (db : DB)
    (hsec : jsTruthyOpt cfg.webhookSecret = true)
    (hkey : jsTruthyOpt cfg.stripeKey = true)
    (hp : w.sigPresent = true) (hv : w.sigValid = true)
    (hfresh : seenEvent db w.event.id = false)
    (hty : w.event.type = .checkoutSessionCompleted)
    (hps : ¬ w.event.session.payment_status = "paid")
    (hsid : ¬ strTrim w.event.session.id = "")
    (hres : jsTruthyOpt cfg.resendApiKey = true)
    (hto : ¬ sessionRecipient w.event.session = "")
    (hmark : invoiceMarked db w.event.session.id = false)
    (hpdf : w.pdfOk = true) :
    (webhookPOST cfg w db).2.2.sends =
      [⟨sessionRecipient w.event.session, w.event.session.id, w.emailOk⟩] ∧
    ∃ r ∈ (webhookPOST cfg w db).2.1.bookings,
      r.stripe_session_id = strTrim w.event.session.id ∧ r.status = .pending := by
  obtain ⟨pr, hu⟩ :=
    upsert_ok_of_sid w (logEvent db "stripe_event_seen" (some w.event.id) none) w.event.session hsid
  have hm1 : invoiceMarked (logEvent db "stripe_event_seen" (some w.event.id) none)
      w.event.session.id = false := by
    rw [invoiceMarked_logEvent]
    simp [hmark]
  have hm2 : invoiceMarked pr.1 w.event.session.id = false := by
    rw [invoiceMarked_events_eq
      (upsert_ok_events w (logEvent db "stripe_event_seen" (some w.event.id) none) w.event.session pr hu)
      w.event.session.id]
    exact hm1
  have hm3 : invoiceMarked
      (logEvent pr.1 "stripe_checkout_completed" (some w.event.id) (some w.event.session.id))
      w.event.session.id = false := by
    rw [invoiceMarked_logEvent]
    simp [hm2]
  have hsend := trySend_active cfg w
    (logEvent pr.1 "stripe_checkout_completed" (some w.event.id) (some w.event.session.id))
    w.event.session hres hto hm3 hpdf
  have hform := dispatch_completed_formula cfg w
    (logEvent db "stripe_event_seen" (some w.event.id) none) pr hty hu
  have htr := post_fresh_trace cfg w db hsec hkey hp hv hfresh
  have hdb := post_fresh_db cfg w db hsec hkey hp hv hfresh
  constructor
  · rw [htr, hform]
    simp only []
    rw [hsend]
  · rw [hdb, hform]
    simp only []
    rw [hsend]
    obtain ⟨r, hrmem, hrsid, hrstat⟩ := upsert_pending_row w
      (logEvent db "stripe_event_seen" (some w.event.id) none) w.event.session pr hu hps
    exact ⟨r, hrmem, hrsid, hrstat⟩

theorem c9_pending_notification_amended_witness :
    ¬ sessUnpaid.payment_status = "paid" ∧
    ((webhookPOST cfgHook worldUnpaid {}).2.2.sends =
      [⟨sessionRecipient sessUnpaid, sessUnpaid.id, worldUnpaid.emailOk⟩] ∧
     ∃ r ∈ (webhookPOST cfgHook worldUnpaid {}).2.1.bookings,
       r.stripe_session_id = strTrim sessUnpaid.id ∧ r.status = .pending) :=
  ⟨by decide,
    c9_pending_notification_amended cfgHook worldUnpaid {} (by decide) (by decide)
      (by decide) (by decide) (by decide) (by decide) (by decide) (by decide)
      (by decide) (by decide) (by decide) (by decide)⟩

end KCE
